import Mathlib

/-!
Verification of the Chile Health Ministry discharge-record ETL pipeline
(`pipweline.py`) against its natural-language specification.

The script is a linear pipeline: parse a `-f`/`--file` argument, extract a
year from the file name, open a SQLite database, check whether rows for that
year already exist in the destination table, otherwise read the CSV,
preprocess it (drop rows with too many `*` placeholders, coerce three columns
to integers, positionally rename columns) and append it, then print a
per-year report.

A pandas DataFrame is embedded as a list of column names plus a list of rows,
each row a list of cells.  A cell is either a string (the state of all cells
as read from the CSV) or an integer (the state after `astype(int)`).  The
destination SQLite table is embedded as `Option (cols × rows)`, with `none`
meaning the table has not been created yet (queries against it raise an
operational error).  Machine floats do not occur: the row-filter threshold is
embedded as a rational number, and Python `int()` as truncation toward zero.
-/

set_option autoImplicit false

namespace Pipeline

/-- A value held in one DataFrame cell: a raw string from the CSV, or an
integer after `astype(int)` coercion. -/
inductive Cell where
  | str (s : String)
  | int (n : Int)
  deriving DecidableEq, Repr

/-- Embedding of a pandas DataFrame: column names plus rows of cells. -/
structure DFrame where
  cols : List String
  rows : List (List Cell)
  deriving DecidableEq, Repr

/-- Python `int()` applied to a real number: truncation toward zero
(`int(8.5) = 8`, `int(-8.5) = -8`). -/
def pyInt (q : ℚ) : Int := if 0 ≤ q then ⌊q⌋ else ⌈q⌉

/-- The numeric value of a digit string. -/
def digitsToNat (l : List Char) : Nat :=
  l.foldl (fun n c => n * 10 + (c.toNat - '0'.toNat)) 0

/-- Python `int(s)` on a string: optional surrounding whitespace, optional
sign, digits.  Used to embed `astype(int)` on a string cell. -/
def pyStrToInt? (s : String) : Option Int :=
  let t := ((s.toList.dropWhile Char.isWhitespace).reverse.dropWhile
    Char.isWhitespace).reverse
  match t with
  | [] => none
  | '+' :: ds =>
    if ds ≠ [] ∧ ds.all Char.isDigit then some (Int.ofNat (digitsToNat ds))
    else none
  | '-' :: ds =>
    if ds ≠ [] ∧ ds.all Char.isDigit then some (-(Int.ofNat (digitsToNat ds)))
    else none
  | ds =>
    if ds.all Char.isDigit then some (Int.ofNat (digitsToNat ds)) else none

/-- `(x == '*').sum()` for one row: how many cells are the literal `"*"`. -/
def starCount (r : List Cell) : Nat :=
  r.countP (fun x => decide (x = Cell.str "*"))

/-- `allowed_stars = int(num_columns * threshold)` from `preprocess_data`
(source line 79). -/
def allowed_stars (df : DFrame) (threshold : ℚ) : Int :=
  pyInt ((df.cols.length : ℚ) * threshold)

/-- The row filter of `preprocess_data` (source lines 82-83): keep the rows
whose `*`-count is at most `allowed_stars`. -/
def preprocKept (df : DFrame) (threshold : ℚ) : List (List Cell) :=
  df.rows.filter (fun r => decide ((starCount r : Int) ≤ allowed_stars df threshold))

/-- `astype(int)` on a single cell: an integer cell stays itself, a string
cell must parse as an integer. -/
def coerceCell : Cell → Except String Cell
  | .int n => .ok (.int n)
  | .str s =>
    match pyStrToInt? s with
    | some n => .ok (.int n)
    | none => .error ("invalid literal for int: " ++ s)

/-- Coerce, within one row, every cell standing under a column named `name`.
Cells beyond the column list are left unchanged. -/
def coerceRow (name : String) : List String → List Cell → Except String (List Cell)
  | _, [] => .ok []
  | [], xs => .ok xs
  | c :: cs, x :: xs =>
    match (if c = name then coerceCell x else .ok x) with
    | .error e => .error e
    | .ok x' =>
      match coerceRow name cs xs with
      | .error e => .error e
      | .ok t => .ok (x' :: t)

/-- Coerce the column `name` in every row. -/
def astypeRows (cols : List String) (name : String) :
    List (List Cell) → Except String (List (List Cell))
  | [] => .ok []
  | r :: rs => do
    let r' ← coerceRow name cols r
    let rs' ← astypeRows cols name rs
    .ok (r' :: rs')

/-- `cleaned_df.loc[:, name] = cleaned_df[name].astype(int)` (source lines
86-90): a `KeyError` if the column is absent, otherwise coerce it in every
row. -/
def astypeIntCol (cols : List String) (name : String) (rows : List (List Cell)) :
    Except String (List (List Cell)) :=
  if name ∈ cols then astypeRows cols name rows
  else .error ("KeyError: " ++ name)

/-- The fixed canonical column list of `preprocess_data` (source lines
93-97).  Note it has 18 entries. -/
def new_column_names : List String :=
  ["PERTENENCIA_ESTABLECIMIENTO_SALUD", "SEXO", "GRUPO_EDAD", "ETNIA",
   "GLOSA_PAIS_ORIGEN", "COMUNA_RESIDENCIA", "GLOSA_COMUNA_RESIDENCIA",
   "REGION_RESIDENCIA", "GLOSA_REGION_RESIDENCIA", "PREVISION",
   "GLOSA_PREVISION", "ANO_EGRESO", "DIAG1", "DIAG2", "DIAS_ESTADA",
   "CONDICION_EGRESO", "INTERV_Q", "PROCED"]

/-- The three columns `preprocess_data` coerces to integers. -/
def coercedColumns : List String :=
  ["COMUNA_RESIDENCIA", "REGION_RESIDENCIA", "ANO_EGRESO"]

/-- Python `dict(m)[k]` for an association list built by `dict(zip(...))`:
the LAST binding of a duplicated key wins. -/
def dictGet? (m : List (String × String)) (k : String) : Option String :=
  ((m.filter (fun p => p.1 == k)).getLast?).map Prod.snd

/-- `cleaned_df.rename(columns=dict(zip(old, new_column_names)))` (source
lines 98-101): each column name is sent through the zip-built dictionary;
names not in the dictionary are kept. -/
def renameCols (cols : List String) : List String :=
  cols.map (fun c => (dictGet? (cols.zip new_column_names) c).getD c)

/-- `preprocess_data(df, threshold=0.5)` (source lines 62-103): filter out
rows with too many `*` cells, coerce the three columns to integers
(raising on a missing column or a non-numeric value), and rename all
columns through the positional zip dictionary. -/
def preprocess_data (df : DFrame) (threshold : ℚ) : Except String DFrame := do
  let r1 ← astypeIntCol df.cols "COMUNA_RESIDENCIA" (preprocKept df threshold)
  let r2 ← astypeIntCol df.cols "REGION_RESIDENCIA" r1
  let r3 ← astypeIntCol df.cols "ANO_EGRESO" r2
  .ok ⟨renameCols df.cols, r3⟩

/-! ### Year extraction (source lines 38-42)

Paths are embedded as lists of characters; `splitOnChar` embeds Python
`str.split(sep)` for a one-character separator. -/

/-- Python `s.split(sep)` for a single-character separator: `""` splits to
`[""]`, and every separator occurrence opens a new chunk. -/
def splitOnChar (sep : Char) : List Char → List (List Char)
  | [] => [[]]
  | c :: rest =>
    if c = sep then [] :: splitOnChar sep rest
    else
      match splitOnChar sep rest with
      | [] => [[c]]
      | h :: t => (c :: h) :: t

/-- `extract_year_from_path` (source line 40):
`file_path.split('/')[-1].split('.')[0][-4:]`. -/
def extract_year_from_path (fp : List Char) : List Char :=
  let base := (splitOnChar '.' ((splitOnChar '/' fp).getLastD [])).headD []
  base.drop (base.length - 4)

/-- `extract_year_from_path` lifted to `String`, as composed in `__main__`. -/
def extractYearStr (s : String) : String :=
  String.mk (extract_year_from_path s.toList)

/-- Modelled from the spec: "take the final path segment (split on `/`)". -/
def finalSegment (fp : List Char) : List Char :=
  (splitOnChar '/' fp).getLastD []

/-- Modelled from the spec: "take the substring before the first `.`". -/
def beforeFirstDot (s : List Char) : List Char :=
  s.takeWhile (fun c => decide (c ≠ '.'))

/-- Modelled from the spec: "take the last 4 characters of that substring". -/
def lastFourChars (s : List Char) : List Char :=
  s.drop (s.length - 4)

/-- The Year Extractor as the spec words it, for the refinement half of C5. -/
def specYearOf (fp : List Char) : List Char :=
  lastFourChars (beforeFirstDot (finalSegment fp))

/-! ### Database model, existence checker, validator, main
(source lines 45-54, 106-126, 129-161)

The destination SQLite table is `none` before its first creation (queries
against it raise `OperationalError`), and otherwise carries its column list
and its rows.  Only statements actually issued by the script are modelled:
the year-filter `SELECT` of `data_already_exists`, the `GROUP BY` of
`validate_data`, and the `to_sql(if_exists='append')` of
`save_to_database`. -/

/-- The destination-table state: `none` when the table has not been created
yet, otherwise its column names and rows. -/
abbrev DB := Option (List String × List (List Cell))

/-- Index of the column `ANO_EGRESO` in a column list (what SQLite resolves
the column reference of the two queries to); `none` raises an operational
error (`no such column`). -/
def anoIndex (cols : List String) : Option Nat :=
  match cols with
  | [] => none
  | c :: cs => if c = "ANO_EGRESO" then some 0 else (anoIndex cs).map (· + 1)

/-- A year string that is a plain digit sequence, interpolated into the
query, is a numeric SQL literal with this value.  Non-digit strings are not
modelled (SQLite's parser is outside this development); they take the `none`
branch below. -/
def sqlLit? (s : String) : Option Int :=
  if s.toList ≠ [] ∧ s.toList.all Char.isDigit then
    some (Int.ofNat (digitsToNat s.toList))
  else none

/-- The result set of `SELECT * FROM <table> WHERE ANO_EGRESO=<y>`:
an operational error when the table or the column does not exist, otherwise
the rows whose `ANO_EGRESO` cell is the integer `y`. -/
def runYearQuery (db : DB) (y : Int) : Except Unit (List (List Cell)) :=
  match db with
  | none => .error ()
  | some (cols, rows) =>
    match anoIndex cols with
    | none => .error ()
    | some p => .ok (rows.filter (fun r => decide (r[p]? = some (Cell.int y))))

/-- `data_already_exists` (source lines 45-54): run the year query inside a
`try`; an `OperationalError` gives `False`, otherwise the answer is
`fetchone() is not None`. -/
def data_already_exists (db : DB) (yearStr : String) : Bool :=
  match sqlLit? yearStr with
  | none => false
  | some y =>
    match runYearQuery db y with
    | .error _ => false
    | .ok found => found.head?.isSome

/-- `df.to_sql(..., if_exists='append')` (source line 114): create the table
from the frame on first use, otherwise append the rows; `none` models the
fatal schema-mismatch failure when the columns disagree. -/
def appendTable (db : DB) (out : DFrame) : Option DB :=
  match db with
  | none => some (some (out.cols, out.rows))
  | some (cols, rows) =>
    if out.cols = cols then some (some (cols, rows ++ out.rows)) else none

/-- The result set of `SELECT ANO_EGRESO, count(*) FROM <table> GROUP BY
ANO_EGRESO`, keyed by the cell found in the `ANO_EGRESO` column (`none` is a
row too short to have that cell, SQL `NULL`). -/
def groupPairs (rows : List (List Cell)) (p : Nat) : List (Option Cell × Nat) :=
  ((rows.map (fun r => r[p]?)).dedup).map
    (fun k => (k, rows.countP (fun r => decide (r[p]? = k))))

/-- `validate_data` (source lines 117-126): run the grouping query (an
uncaught operational error if the table or column is missing) and print the
first 100 result rows. -/
def validate_data (db : DB) : Except Unit (List (Option Cell × Nat)) :=
  match db with
  | none => .error ()
  | some (cols, rows) =>
    match anoIndex cols with
    | none => .error ()
    | some p => .ok ((groupPairs rows p).take 100)

/-! ### Argument parsing (source lines 9-35)

`getopt.getopt(args, "f:", ["file="])` followed by the option loop. -/

/-- Split the body of a long option at its first `=`:
`"file=x"` gives `("file", some "x")`, `"file"` gives `("file", none)`. -/
def splitLongOpt (s : String) : String × Option String :=
  let name := s.takeWhile (fun c => decide (c ≠ '='))
  if name = s then (s, none) else (name, some (s.drop (name.length + 1)))

/-- `getopt.getopt(argumentList, "f:", ["file="])`: recognizes `-f v`,
`-fv`, `--file=v`, `--file v` and unambiguous long prefixes; stops at `--`
or at the first non-option argument; errors on an unrecognized option or a
missing argument. -/
def getoptAux : List String → Except String (List (String × String))
  | [] => .ok []
  | a :: rest =>
    if a = "--" then .ok []
    else if a.startsWith "--" then
      let p := splitLongOpt (a.drop 2)
      if "file=".startsWith p.1 then
        match p.2 with
        | some v => (getoptAux rest).map (fun os => ("--file", v) :: os)
        | none =>
          match rest with
          | v :: rest' => (getoptAux rest').map (fun os => ("--file", v) :: os)
          | [] => .error "option --file requires argument"
      else .error ("option --" ++ p.1 ++ " not recognized")
    else if a.startsWith "-" ∧ a ≠ "-" then
      let cs := a.drop 1
      if cs.startsWith "f" then
        let v := cs.drop 1
        if v ≠ "" then (getoptAux rest).map (fun os => ("-f", v) :: os)
        else
          match rest with
          | b :: rest' => (getoptAux rest').map (fun os => ("-f", b) :: os)
          | [] => .error "option -f requires argument"
      else .error ("option -" ++ cs.take 1 ++ " not recognized")
    else .ok []

/-- `parse_arguments` (source lines 9-35): run `getopt` (its error becomes
`sys.exit(2)` in `__main__`), then fold the recognized options, the last
`-f`/`--file` value winning, with `''` as the default. -/
def parse_arguments (argv : List String) : Except String String :=
  (getoptAux argv).map
    (fun opts => opts.foldl
      (fun acc p => if p.1 = "-f" ∨ p.1 = "--file" then p.2 else acc) "")

/-! ### The `__main__` block (source lines 129-161) -/

/-- The observable pipeline steps, in the order `__main__` performs them. -/
inductive Event where
  | loadCSV
  | existsCheck
  | preprocess
  | append
  | validate
  deriving DecidableEq, Repr

/-- How a run ends: normally (exit status 0), `sys.exit(2)` on a `getopt`
error, or an uncaught exception. -/
inductive ExitStatus where
  | success
  | usageError
  | crash
  deriving DecidableEq, Repr

/-- The observable outcome of one run: the steps performed, the final
destination-table state, the exit status, the console messages, and the
validator's printed report when it ran successfully. -/
structure RunResult where
  events : List Event
  db : DB
  exit : ExitStatus
  output : List String
  report : Option (List (Option Cell × Nat))
  deriving DecidableEq, Repr

/-- The tail every run shares (source line 161): `validate_data` always runs
last; its operational error, unlike the existence checker's, is uncaught. -/
def finishValidate (evs : List Event) (db : DB) (outp : List String) : RunResult :=
  match validate_data db with
  | .error _ => ⟨evs ++ [Event.validate], db, ExitStatus.crash, outp, none⟩
  | .ok pairs => ⟨evs ++ [Event.validate], db, ExitStatus.success, outp, some pairs⟩

/-- The `if file_path:` branch of `__main__` (source lines 138-157): extract
the year, read the CSV (`csv` stands for the parsed file content), check
existence, and only when the year is absent preprocess and append.  A
preprocessing or append failure is an uncaught exception, so the validator
never runs there. -/
def mainWithPath (path : String) (csv : DFrame) (db0 : DB) : RunResult :=
  if data_already_exists db0 (extractYearStr path) then
    finishValidate [Event.loadCSV, Event.existsCheck] db0
      ["File Path: " ++ path,
       "The data already exists in the database. No se realizó ninguna acción."]
  else
    match preprocess_data csv (1 / 2) with
    | .error _ =>
      ⟨[Event.loadCSV, Event.existsCheck, Event.preprocess], db0,
       ExitStatus.crash, ["File Path: " ++ path], none⟩
    | .ok out =>
      match appendTable db0 out with
      | none =>
        ⟨[Event.loadCSV, Event.existsCheck, Event.preprocess], db0,
         ExitStatus.crash, ["File Path: " ++ path], none⟩
      | some db1 =>
        finishValidate
          [Event.loadCSV, Event.existsCheck, Event.preprocess, Event.append]
          db1 ["File Path: " ++ path]

/-- `__main__` (source lines 129-161): parse the arguments (a `getopt` error
is `sys.exit(2)`), then either run the file branch or print
`No path was provided`, and validate in both cases. -/
def pipelineMain (argv : List String) (csv : DFrame) (db0 : DB) : RunResult :=
  match parse_arguments argv with
  | .error msg => ⟨[], db0, ExitStatus.usageError, [msg], none⟩
  | .ok path =>
    if path = "" then finishValidate [] db0 ["No path was provided"]
    else mainWithPath path csv db0

/-- How many rows of the destination table carry the integer year `y` in
their `ANO_EGRESO` column. -/
def countYearInDB (db : DB) (y : Int) : Nat :=
  match db with
  | none => 0
  | some (cols, rows) =>
    match anoIndex cols with
    | none => 0
    | some p => rows.countP (fun r => decide (r[p]? = some (Cell.int y)))

/-! ### Concrete fixtures used by counterexamples and witnesses -/

/-- A 17-column raw record set: the first 17 canonical names (so the three
coerced columns are present and distinct) and one star-free row, numeric in
the coerced columns. -/
def df17cx : DFrame :=
  ⟨new_column_names.take 17,
   [[Cell.str "a", Cell.str "a", Cell.str "a", Cell.str "a", Cell.str "a",
     Cell.str "1", Cell.str "a", Cell.str "2", Cell.str "a", Cell.str "a",
     Cell.str "a", Cell.str "2019", Cell.str "a", Cell.str "a", Cell.str "a",
     Cell.str "a", Cell.str "a"]]⟩

/-- One well-formed 18-cell CSV row, numeric in the three coerced columns,
with `ANO_EGRESO = 2019`. -/
def row18 : List Cell :=
  [Cell.str "a", Cell.str "a", Cell.str "a", Cell.str "a", Cell.str "a",
   Cell.str "1", Cell.str "a", Cell.str "2", Cell.str "a", Cell.str "a",
   Cell.str "a", Cell.str "2019", Cell.str "a", Cell.str "a", Cell.str "a",
   Cell.str "a", Cell.str "a", Cell.str "a"]

/-- A well-formed raw record set: the 18 canonical column names and the one
row `row18`. -/
def df18 : DFrame := ⟨new_column_names, [row18]⟩

/-- `row18` after the three integer coercions. -/
def row18c : List Cell :=
  [Cell.str "a", Cell.str "a", Cell.str "a", Cell.str "a", Cell.str "a",
   Cell.int 1, Cell.str "a", Cell.int 2, Cell.str "a", Cell.str "a",
   Cell.str "a", Cell.int 2019, Cell.str "a", Cell.str "a", Cell.str "a",
   Cell.str "a", Cell.str "a", Cell.str "a"]

/-- The preprocessed form of `df18`. -/
def out18 : DFrame := ⟨new_column_names, [row18c]⟩

/-- A destination-table state that already holds one row for year 2019. -/
def db2019 : DB := some (["ANO_EGRESO"], [[Cell.int 2019]])

/-! ### Theorems -/

theorem anoIndex_ne_none {cols : List String} (h : "ANO_EGRESO" ∈ cols) :
    anoIndex cols ≠ none := by
  induction cols with
  | nil => simp at h
  | cons c cs ih =>
    unfold anoIndex
    by_cases hc : c = "ANO_EGRESO"
    · simp [hc]
    · have hcs : "ANO_EGRESO" ∈ cs := by
        cases List.mem_cons.mp h with
        | inl he => exact absurd he.symm hc
        | inr hm => exact hm
      cases ha : anoIndex cs with
      | none => exact absurd ha (ih hcs)
      | some p => simp [hc, ha]

theorem dictGet?_eq_none {m : List (String × String)} {k : String}
    (h : ∀ p ∈ m, p.1 ≠ k) : dictGet? m k = none := by
  unfold dictGet?
  rw [List.filter_eq_nil_iff.mpr (fun p hp => by simpa using h p hp)]
  rfl

/-- Positional rename through a zip-built dictionary: for pairwise-distinct
old names it maps the old list to the prefix of the new list. -/
theorem zip_rename_eq_take (olds news : List String)
    (hnd : olds.Nodup) (hlen : olds.length ≤ news.length) :
    olds.map (fun c => (dictGet? (olds.zip news) c).getD c) =
      news.take olds.length := by
  induction olds generalizing news with
  | nil => simp
  | cons o os ih =>
    cases news with
    | nil => simp at hlen
    | cons n ns =>
      have hnotin : o ∉ os := (List.nodup_cons.mp hnd).1
      have hnd' : os.Nodup := (List.nodup_cons.mp hnd).2
      have hlen' : os.length ≤ ns.length := by simpa using hlen
      have hzip : ∀ p ∈ os.zip ns, p.1 ≠ o := by
        intro p hp hpo
        exact hnotin (hpo ▸ (List.of_mem_zip hp).1)
      have ho : dictGet? ((o :: os).zip (n :: ns)) o = some n := by
        unfold dictGet?
        rw [List.zip_cons_cons, List.filter_cons]
        rw [if_pos (by simp)]
        rw [List.filter_eq_nil_iff.mpr (fun p hp => by simpa using hzip p hp)]
        rfl
      have hos : ∀ c ∈ os, dictGet? ((o :: os).zip (n :: ns)) c =
          dictGet? (os.zip ns) c := by
        intro c hc
        unfold dictGet?
        rw [List.zip_cons_cons, List.filter_cons, if_neg (by
          simp only [beq_iff_eq]
          intro hoc
          exact hnotin (hoc ▸ hc))]
      rw [List.map_cons, ho]
      simp only [Option.getD_some, List.length_cons, List.take_succ_cons]
      refine congrArg (n :: ·) ?_
      calc os.map (fun c => (dictGet? ((o :: os).zip (n :: ns)) c).getD c)
          = os.map (fun c => (dictGet? (os.zip ns) c).getD c) :=
            List.map_congr_left (fun c hc => by rw [hos c hc])
        _ = ns.take os.length := ih ns hnd' hlen'

/-- When preprocessing succeeds, its pieces: the output columns are the
renamed input columns, and the output rows come from the three successive
column coercions of the filtered rows. -/
theorem preprocess_ok_elim {df : DFrame} {t : ℚ} {out : DFrame}
    (h : preprocess_data df t = .ok out) :
    out.cols = renameCols df.cols ∧
    ∃ r1 r2,
      astypeIntCol df.cols "COMUNA_RESIDENCIA" (preprocKept df t) = .ok r1 ∧
      astypeIntCol df.cols "REGION_RESIDENCIA" r1 = .ok r2 ∧
      astypeIntCol df.cols "ANO_EGRESO" r2 = .ok out.rows := by
  unfold preprocess_data at h
  cases h1 : astypeIntCol df.cols "COMUNA_RESIDENCIA" (preprocKept df t) with
  | error e => rw [h1] at h; simp [Bind.bind, Except.bind] at h
  | ok r1 =>
    rw [h1] at h
    simp only [Bind.bind, Except.bind] at h
    cases h2 : astypeIntCol df.cols "REGION_RESIDENCIA" r1 with
    | error e => rw [h2] at h; simp at h
    | ok r2 =>
      rw [h2] at h
      simp only at h
      cases h3 : astypeIntCol df.cols "ANO_EGRESO" r2 with
      | error e => rw [h3] at h; simp at h
      | ok r3 =>
        rw [h3] at h
        simp only [Except.ok.injEq] at h
        subst h
        exact ⟨rfl, r1, r2, rfl, h2, h3⟩

/-- C4 counterexample: a 17-column record set with pairwise-distinct
original names on which preprocessing succeeds, yet the output's column
names are `new_column_names.take 17` — not the canonical list, whose last
entry `PROCED` is missing, because the source's canonical list has 18
entries. -/
theorem rename_17_columns_cx :
    (preprocess_data df17cx (1 / 2)).map DFrame.cols =
      .ok (new_column_names.take 17) ∧
    new_column_names.take 17 ≠ new_column_names := by
  have hlen : df17cx.cols.length = 17 := rfl
  have hall : allowed_stars df17cx (1 / 2) = 8 := by
    unfold allowed_stars pyInt
    rw [hlen, if_pos (by norm_num), Int.floor_eq_iff]
    norm_num
  have hkept : preprocKept df17cx (1 / 2) = df17cx.rows := by
    unfold preprocKept
    simp only [hall]
    rfl
  constructor
  · unfold preprocess_data
    rw [hkept]
    rfl
  · decide

/-- On `df18` (18 canonical columns, one star-free numeric row), the
Preprocessor succeeds and yields `out18`. -/
theorem preprocess_df18_eq : preprocess_data df18 (1 / 2) = .ok out18 := by
  have hlen : df18.cols.length = 18 := rfl
  have hall : allowed_stars df18 (1 / 2) = 9 := by
    unfold allowed_stars pyInt
    rw [hlen, if_pos (by norm_num), Int.floor_eq_iff]
    norm_num
  have hkept : preprocKept df18 (1 / 2) = df18.rows := by
    unfold preprocKept
    simp only [hall]
    rfl
  unfold preprocess_data
  rw [hkept]
  rfl

/-- C4 (amended): the source's canonical list has 18 names, not 17; for
every raw record set with 18 pairwise-distinct column names, whenever
preprocessing succeeds the output's column names are exactly that canonical
18-name list, regardless of what the original names were. -/
theorem preprocess_rename_canonical (df : DFrame) (t : ℚ) (out : DFrame)
    (hnd : df.cols.Nodup) (hlen : df.cols.length = 18)
    (h : preprocess_data df t = .ok out) :
    out.cols = new_column_names := by
  have hcols := (preprocess_ok_elim h).1
  rw [hcols]
  unfold renameCols
  have h18 : new_column_names.length = 18 := rfl
  rw [zip_rename_eq_take df.cols new_column_names hnd (by rw [hlen, h18])]
  rw [hlen, ← h18, List.take_length]

/-- Witness for `preprocess_rename_canonical` at the record set `df18`. -/
theorem preprocess_rename_canonical_witness : out18.cols = new_column_names :=
  preprocess_rename_canonical df18 (1 / 2) out18 (by decide) rfl
    preprocess_df18_eq

theorem coerceRow_ok_length (name : String) :
    ∀ (cols : List String) (row row' : List Cell),
      coerceRow name cols row = .ok row' → row'.length = row.length := by
  intro cols
  induction cols with
  | nil =>
    intro row row' h
    cases row with
    | nil =>
      simp only [coerceRow, Except.ok.injEq] at h
      subst h; rfl
    | cons x xs =>
      simp only [coerceRow, Except.ok.injEq] at h
      subst h; rfl
  | cons c cs ih =>
    intro row row' h
    cases row with
    | nil =>
      simp only [coerceRow, Except.ok.injEq] at h
      subst h; rfl
    | cons x xs =>
      unfold coerceRow at h
      cases hx : (if c = name then coerceCell x else .ok x) with
      | error e => simp [hx] at h
      | ok x' =>
        simp only [hx] at h
        cases ht : coerceRow name cs xs with
        | error e => simp [ht] at h
        | ok t =>
          simp only [ht, Except.ok.injEq] at h
          subst h
          simp [ih xs t ht]

theorem coerceRow_ok_get (name : String) :
    ∀ (cols : List String) (row row' : List Cell),
      coerceRow name cols row = .ok row' →
      ∀ j : Nat, (∀ c, cols[j]? = some c → c ≠ name) → row'[j]? = row[j]? := by
  intro cols
  induction cols with
  | nil =>
    intro row row' h j _
    cases row with
    | nil =>
      simp only [coerceRow, Except.ok.injEq] at h
      subst h; rfl
    | cons x xs =>
      simp only [coerceRow, Except.ok.injEq] at h
      subst h; rfl
  | cons c cs ih =>
    intro row row' h j hj
    cases row with
    | nil =>
      simp only [coerceRow, Except.ok.injEq] at h
      subst h; rfl
    | cons x xs =>
      unfold coerceRow at h
      cases hx : (if c = name then coerceCell x else .ok x) with
      | error e => simp [hx] at h
      | ok x' =>
        simp only [hx] at h
        cases ht : coerceRow name cs xs with
        | error e => simp [ht] at h
        | ok t =>
          simp only [ht, Except.ok.injEq] at h
          subst h
          cases j with
          | zero =>
            have hcne : c ≠ name := hj c (by simp)
            rw [if_neg hcne] at hx
            simp only [Except.ok.injEq] at hx
            subst hx
            simp
          | succ k =>
            have hk : ∀ c', cs[k]? = some c' → c' ≠ name := by
              intro c' hc'
              exact hj c' (by simpa using hc')
            simpa using ih xs t ht k hk

theorem astypeRows_ok_forall₂ (cols : List String) (name : String) :
    ∀ (rows rows' : List (List Cell)),
      astypeRows cols name rows = .ok rows' →
      List.Forall₂ (fun r r' => coerceRow name cols r = .ok r') rows rows' := by
  intro rows
  induction rows with
  | nil =>
    intro rows' h
    simp only [astypeRows, Except.ok.injEq] at h
    subst h
    exact List.Forall₂.nil
  | cons r rs ih =>
    intro rows' h
    unfold astypeRows at h
    cases hr : coerceRow name cols r with
    | error e => rw [hr] at h; simp [Bind.bind, Except.bind] at h
    | ok r' =>
      rw [hr] at h
      simp only [Bind.bind, Except.bind] at h
      cases hrs : astypeRows cols name rs with
      | error e => rw [hrs] at h; simp at h
      | ok rs' =>
        rw [hrs] at h
        simp only [Except.ok.injEq] at h
        subst h
        exact List.Forall₂.cons hr (ih rs' hrs)

theorem forall₂_get {α β : Type _} {R : α → β → Prop} :
    ∀ {l : List α} {l' : List β}, List.Forall₂ R l l' →
      ∀ i : Nat, (l[i]? = none ∧ l'[i]? = none) ∨
        ∃ a b, l[i]? = some a ∧ l'[i]? = some b ∧ R a b := by
  intro l l' h
  induction h with
  | nil => intro i; left; simp
  | @cons a b la lb hr _ ih =>
    intro i
    cases i with
    | zero => right; exact ⟨a, b, by simp, by simp, hr⟩
    | succ k => simpa using ih k

theorem astypeIntCol_ok_rows {cols : List String} {name : String}
    {rows rows' : List (List Cell)}
    (h : astypeIntCol cols name rows = .ok rows') :
    astypeRows cols name rows = .ok rows' := by
  unfold astypeIntCol at h
  split at h
  · exact h
  · cases h

/-- C9: whenever preprocessing succeeds, it never adds rows; the output rows
are, in order, the retained input rows, and every cell standing under a
column other than the three coerced ones is unchanged. -/
theorem preprocess_frame_spec (df : DFrame) (t : ℚ) (out : DFrame)
    (h : preprocess_data df t = .ok out) :
    out.rows.length ≤ df.rows.length ∧
    ∃ kept : List (List Cell), kept.Sublist df.rows ∧
      out.rows.length = kept.length ∧
      ∀ i j : Nat, (∀ c, df.cols[j]? = some c → c ∉ coercedColumns) →
        out.rows[i]?.bind (fun r => r[j]?) = (kept[i]?).bind (fun r => r[j]?) := by
  obtain ⟨-, r1, r2, h1, h2, h3⟩ := preprocess_ok_elim h
  have f1 := astypeRows_ok_forall₂ df.cols "COMUNA_RESIDENCIA" _ _
    (astypeIntCol_ok_rows h1)
  have f2 := astypeRows_ok_forall₂ df.cols "REGION_RESIDENCIA" _ _
    (astypeIntCol_ok_rows h2)
  have f3 := astypeRows_ok_forall₂ df.cols "ANO_EGRESO" _ _
    (astypeIntCol_ok_rows h3)
  have hsub : (preprocKept df t).Sublist df.rows := List.filter_sublist _
  have hlen1 := f1.length_eq
  have hlen2 := f2.length_eq
  have hlen3 := f3.length_eq
  have hlen : out.rows.length = (preprocKept df t).length := by omega
  refine ⟨?_, preprocKept df t, hsub, hlen, ?_⟩
  · calc out.rows.length = (preprocKept df t).length := hlen
      _ ≤ df.rows.length := hsub.length_le
  · intro i j hj
    have hc1 : ∀ c, df.cols[j]? = some c → c ≠ "COMUNA_RESIDENCIA" := by
      intro c hcj hcc
      exact hj c hcj (by rw [hcc]; decide)
    have hc2 : ∀ c, df.cols[j]? = some c → c ≠ "REGION_RESIDENCIA" := by
      intro c hcj hcc
      exact hj c hcj (by rw [hcc]; decide)
    have hc3 : ∀ c, df.cols[j]? = some c → c ≠ "ANO_EGRESO" := by
      intro c hcj hcc
      exact hj c hcj (by rw [hcc]; decide)
    cases hk : (preprocKept df t)[i]? with
    | none =>
      have hout : out.rows[i]? = none := by
        apply List.getElem?_eq_none
        rw [hlen]
        exact List.getElem?_eq_none_iff.mp hk
      rw [hout]
    | some r =>
      rcases forall₂_get f1 i with ⟨hn1, -⟩ | ⟨a, b, ha, hb, hab⟩
      · rw [hk] at hn1; cases hn1
      · rw [hk] at ha
        injection ha with ha
        subst ha
        rcases forall₂_get f2 i with ⟨hn2, -⟩ | ⟨a2, b2, ha2, hb2, hab2⟩
        · rw [hb] at hn2; cases hn2
        · rw [hb] at ha2
          injection ha2 with ha2
          subst ha2
          rcases forall₂_get f3 i with ⟨hn3, -⟩ | ⟨a3, b3, ha3, hb3, hab3⟩
          · rw [hb2] at hn3; cases hn3
          · rw [hb2] at ha3
            injection ha3 with ha3
            subst ha3
            rw [hb3]
            have g1 := coerceRow_ok_get "COMUNA_RESIDENCIA" df.cols r b hab j hc1
            have g2 := coerceRow_ok_get "REGION_RESIDENCIA" df.cols b b2 hab2 j hc2
            have g3 := coerceRow_ok_get "ANO_EGRESO" df.cols b2 b3 hab3 j hc3
            simp [g1, g2, g3]

/-- Witness for `preprocess_frame_spec` at the record set `df18`. -/
theorem preprocess_frame_spec_witness :
    out18.rows.length ≤ df18.rows.length ∧
    ∃ kept : List (List Cell), kept.Sublist df18.rows ∧
      out18.rows.length = kept.length ∧
      ∀ i j : Nat, (∀ c, df18.cols[j]? = some c → c ∉ coercedColumns) →
        out18.rows[i]?.bind (fun r => r[j]?) = (kept[i]?).bind (fun r => r[j]?) :=
  preprocess_frame_spec df18 (1 / 2) out18 preprocess_df18_eq

theorem splitOnChar_ne_nil (sep : Char) (l : List Char) : splitOnChar sep l ≠ [] := by
  cases l with
  | nil => simp [splitOnChar]
  | cons c rest =>
    simp only [splitOnChar]
    split
    · simp
    · cases splitOnChar sep rest <;> simp

theorem splitOnChar_append_cons (sep : Char) (a b : List Char) :
    splitOnChar sep (a ++ sep :: b) = splitOnChar sep a ++ splitOnChar sep b := by
  induction a with
  | nil => simp [splitOnChar]
  | cons x xs ih =>
    by_cases hx : x = sep
    · subst hx
      simp [splitOnChar, ih]
    · have hne := splitOnChar_ne_nil sep xs
      cases hs : splitOnChar sep xs with
      | nil => exact absurd hs hne
      | cons h t =>
        simp [splitOnChar, if_neg hx, ih, hs]

theorem splitOnChar_of_not_mem {sep : Char} {l : List Char} (h : sep ∉ l) :
    splitOnChar sep l = [l] := by
  induction l with
  | nil => rfl
  | cons c rest ih =>
    have hc : c ≠ sep := fun hc => h (hc ▸ List.mem_cons_self c rest)
    have hrest : sep ∉ rest := fun hr => h (List.mem_cons_of_mem c hr)
    simp only [splitOnChar, if_neg hc, ih hrest]

theorem headD_splitOnChar (sep : Char) (l : List Char) :
    (splitOnChar sep l).headD [] = l.takeWhile (fun c => decide (c ≠ sep)) := by
  induction l with
  | nil => rfl
  | cons c rest ih =>
    by_cases hc : c = sep
    · subst hc
      simp [splitOnChar, List.takeWhile]
    · have hne := splitOnChar_ne_nil sep rest
      cases hs : splitOnChar sep rest with
      | nil => exact absurd hs hne
      | cons h t =>
        rw [hs] at ih
        simp only [splitOnChar, if_neg hc, hs, List.headD, List.takeWhile]
        simp only [List.headD] at ih
        simp [hc, ih]

/-- C5: for every file path whose final `/`-segment has the form
`<name><YYYY>.csv`, with `<name><YYYY>` containing no `.`, the Year Extractor
returns the 4-character suffix `YYYY`; and in general it returns the last 4
characters of the part before the first `.` of the final path segment. -/
theorem extract_year_spec :
    (∀ (n y fp : List Char), y.length = 4 → '.' ∉ n ++ y →
      (splitOnChar '/' fp).getLastD [] = n ++ y ++ ('.' :: ['c', 's', 'v']) →
      extract_year_from_path fp = y) ∧
    (∀ fp : List Char, extract_year_from_path fp = specYearOf fp) := by
  constructor
  · intro n y fp hy hdot hseg
    have hcsv : '.' ∉ (['c', 's', 'v'] : List Char) := by decide
    have hassoc : n ++ y ++ ('.' :: ['c', 's', 'v']) = (n ++ y) ++ '.' :: ['c', 's', 'v'] :=
      rfl
    simp only [extract_year_from_path, hseg, hassoc, splitOnChar_append_cons,
      splitOnChar_of_not_mem hdot, splitOnChar_of_not_mem hcsv]
    simp only [List.singleton_append, List.headD_cons, List.length_append, hy,
      Nat.add_sub_cancel]
    exact List.drop_left n y
  · intro fp
    simp only [extract_year_from_path, specYearOf, finalSegment, beforeFirstDot,
      lastFourChars, headD_splitOnChar]

/-- Witness for `extract_year_spec` at the path `data/egresos2019.csv`. -/
theorem extract_year_spec_witness :
    extract_year_from_path ("data/egresos2019.csv".toList) = "2019".toList :=
  extract_year_spec.1 ("egresos".toList) ("2019".toList)
    ("data/egresos2019.csv".toList) (by decide) (by decide) (by decide)


/-- C6: for a numeric year, the Existence Checker returns true exactly when
the query `SELECT * FROM <table> WHERE ANO_EGRESO = <year>` yields at least
one row, and an operational error of that query — in particular the table
not yet existing — gives false instead of propagating. -/
theorem exists_checker_spec (db : DB) (yearStr : String) (y : Int)
    (hy : sqlLit? yearStr = some y) :
    (∀ found, runYearQuery db y = .ok found →
      (data_already_exists db yearStr = true ↔ found ≠ [])) ∧
    (∀ e : Unit, runYearQuery db y = .error e →
      data_already_exists db yearStr = false) ∧
    (db = none → data_already_exists db yearStr = false) := by
  refine ⟨?_, ?_, ?_⟩
  · intro found hq
    simp only [data_already_exists, hy, hq]
    cases found <;> simp
  · intro e hq
    simp only [data_already_exists, hy, hq]
  · intro hdb
    subst hdb
    simp [data_already_exists, hy, runYearQuery]

/-- Witness for `exists_checker_spec`: a one-row table holding year 2019,
queried for `"2019"`. -/
theorem exists_checker_spec_witness :
    data_already_exists (some (["ANO_EGRESO"], [[Cell.int 2019]])) "2019" = true ↔
      ([[Cell.int 2019]] : List (List Cell)) ≠ [] :=
  (exists_checker_spec (some (["ANO_EGRESO"], [[Cell.int 2019]])) "2019" 2019
    (by rfl)).1 [[Cell.int 2019]] (by rfl)

/-- C8: whenever the Validator's grouping query succeeds, it prints at most
100 `(year, count)` pairs, with pairwise-distinct year keys, each key a value
occurring in the `ANO_EGRESO` column and each count the number of its rows;
on a table that exists but has zero rows it prints nothing and raises no
error. -/
theorem validator_report_spec :
    (∀ (cols : List String) (rows : List (List Cell)) (p : Nat)
        (out : List (Option Cell × Nat)),
      anoIndex cols = some p →
      validate_data (some (cols, rows)) = .ok out →
      out.length ≤ 100 ∧ (out.map Prod.fst).Nodup ∧
      ∀ pr ∈ out, pr.1 ∈ rows.map (fun r => r[p]?) ∧
        pr.2 = rows.countP (fun r => decide (r[p]? = pr.1))) ∧
    (∀ cols : List String, anoIndex cols ≠ none →
      validate_data (some (cols, [])) = .ok []) := by
  constructor
  · intro cols rows p out hp hout
    simp only [validate_data, hp, Except.ok.injEq] at hout
    subst hout
    refine ⟨List.length_take_le _ _, ?_, ?_⟩
    · rw [List.map_take]
      refine (List.take_sublist _ _).nodup ?_
      have hfst : (groupPairs rows p).map Prod.fst =
          (rows.map (fun r => r[p]?)).dedup := by
        simp only [groupPairs, List.map_map]
        exact (List.map_congr_left fun k _ => rfl).trans
          (List.map_id ((rows.map (fun r => r[p]?)).dedup))
      rw [hfst]
      exact List.nodup_dedup _
    · intro pr hpr
      have hmem : pr ∈ groupPairs rows p := List.take_subset _ _ hpr
      simp only [groupPairs, List.mem_map] at hmem
      obtain ⟨k, hk, hkpr⟩ := hmem
      subst hkpr
      exact ⟨List.mem_dedup.mp hk, rfl⟩
  · intro cols h
    cases ha : anoIndex cols with
    | none => exact absurd ha h
    | some p => simp [validate_data, ha, groupPairs]

/-- Witness for `validator_report_spec`: the one-row table with year 2019. -/
theorem validator_report_spec_witness :
    ([(some (Cell.int 2019), 1)] : List (Option Cell × Nat)).length ≤ 100 ∧
    (([(some (Cell.int 2019), 1)] : List (Option Cell × Nat)).map Prod.fst).Nodup ∧
    ∀ pr ∈ ([(some (Cell.int 2019), 1)] : List (Option Cell × Nat)),
      pr.1 ∈ ([[Cell.int 2019]] : List (List Cell)).map (fun r => r[0]?) ∧
      pr.2 = ([[Cell.int 2019]] : List (List Cell)).countP
        (fun r => decide (r[0]? = pr.1)) :=
  validator_report_spec.1 ["ANO_EGRESO"] [[Cell.int 2019]] 0
    [(some (Cell.int 2019), 1)] (by rfl) (by rfl)

/-- C3 counterexample: with one column and the threshold `-1/2`, the code's
`int()` truncation (`allowed_stars = 0`) retains a star-free row that the
claim's `floor` bound (`-1`) says must be dropped. -/
theorem preprocess_drop_rule_cx :
    ((starCount [Cell.str "x"] : Int) >
      ⌊(((DFrame.mk ["A"] [[Cell.str "x"]]).cols.length : ℚ)) * (-1 / 2)⌋) ∧
    [Cell.str "x"] ∈ preprocKept (DFrame.mk ["A"] [[Cell.str "x"]]) (-1 / 2) := by
  have hsc : (starCount [Cell.str "x"] : Int) = 0 := by rfl
  constructor
  · rw [hsc]
    have : ⌊(((DFrame.mk ["A"] [[Cell.str "x"]]).cols.length : ℚ)) * (-1 / 2)⌋ = -1 := by
      rw [Int.floor_eq_iff]
      norm_num
    rw [this]
    norm_num
  · have hall : allowed_stars (DFrame.mk ["A"] [[Cell.str "x"]]) (-1 / 2) = 0 := by
      unfold allowed_stars pyInt
      rw [if_neg (by norm_num)]
      rw [Int.ceil_eq_iff]
      norm_num
    refine List.mem_filter.mpr ⟨List.mem_cons_self _ _, ?_⟩
    rw [hall, hsc]
    rfl

/-- C3 (amended to nonnegative thresholds): for every record set and every
threshold `t ≥ 0`, the row filter retains exactly the rows whose `*`-count is
at most `⌊num_columns * t⌋`, and so drops exactly those above that bound. -/
theorem preprocess_drop_rule (df : DFrame) (t : ℚ) (ht : 0 ≤ t) (r : List Cell) :
    r ∈ preprocKept df t ↔
      r ∈ df.rows ∧ (starCount r : Int) ≤ ⌊(df.cols.length : ℚ) * t⌋ := by
  have hnn : (0 : ℚ) ≤ (df.cols.length : ℚ) * t := mul_nonneg (by positivity) ht
  simp only [preprocKept, List.mem_filter, allowed_stars, pyInt, if_pos hnn,
    decide_eq_true_eq]

/-- Witness for `preprocess_drop_rule`: a two-column frame whose only row is
all stars, at the default threshold `1/2`. -/
theorem preprocess_drop_rule_witness :
    [Cell.str "*", Cell.str "*"] ∈
        preprocKept (DFrame.mk ["A", "B"] [[Cell.str "*", Cell.str "*"]]) (1 / 2) ↔
      [Cell.str "*", Cell.str "*"] ∈
          (DFrame.mk ["A", "B"] [[Cell.str "*", Cell.str "*"]]).rows ∧
        (starCount [Cell.str "*", Cell.str "*"] : Int) ≤
          ⌊(((DFrame.mk ["A", "B"] [[Cell.str "*", Cell.str "*"]]).cols.length : ℚ)) * (1 / 2)⌋ :=
  preprocess_drop_rule (DFrame.mk ["A", "B"] [[Cell.str "*", Cell.str "*"]])
    (1 / 2) (by norm_num) [Cell.str "*", Cell.str "*"]

/-- C1 counterexample: with a file path supplied and a destination table
already holding a row for the target year, the Existence Checker reports the
year present, yet the Loader has read the CSV file — the code loads the file
before it performs the existence check. -/
theorem loader_despite_existing_year_cx :
    data_already_exists db2019 (extractYearStr "data/egresos2019.csv") = true ∧
    Event.loadCSV ∈
      (mainWithPath "data/egresos2019.csv" df18 db2019).events := by
  constructor
  · rfl
  · have hex : data_already_exists db2019 (extractYearStr "data/egresos2019.csv")
        = true := rfl
    unfold mainWithPath
    rw [hex]
    decide

/-- C1 (amended): in every run with a file path supplied, the Loader runs
unconditionally, before the Existence Checker; it is the Preprocessor and
the Persister, not the Loader, that run only when the checker reported the
year absent, and when the year is already present the table is left
unchanged — but the CSV has nonetheless been read. -/
theorem loader_before_existence_check (path : String) (csv : DFrame) (db : DB) :
    (mainWithPath path csv db).events.take 2 = [Event.loadCSV, Event.existsCheck] ∧
    (data_already_exists db (extractYearStr path) = true →
      Event.preprocess ∉ (mainWithPath path csv db).events ∧
      Event.append ∉ (mainWithPath path csv db).events ∧
      (mainWithPath path csv db).db = db) ∧
    (data_already_exists db (extractYearStr path) = false →
      Event.preprocess ∈ (mainWithPath path csv db).events) := by
  unfold mainWithPath finishValidate
  cases hex : data_already_exists db (extractYearStr path) with
  | true =>
    cases validate_data db <;> simp
  | false =>
    cases hp : preprocess_data csv (1 / 2) with
    | error e => simp
    | ok out =>
      cases ha : appendTable db out with
      | none => simp [ha]
      | some db1 => cases hv : validate_data db1 <;> simp [ha, hv]

/-- Witness for `loader_before_existence_check` in the year-already-present
case. -/
theorem loader_before_existence_check_witness :
    Event.preprocess ∉ (mainWithPath "data/x2019.csv" df18 db2019).events ∧
    Event.append ∉ (mainWithPath "data/x2019.csv" df18 db2019).events ∧
    (mainWithPath "data/x2019.csv" df18 db2019).db = db2019 :=
  (loader_before_existence_check "data/x2019.csv" df18 db2019).2.1 (by rfl)

/-- C2: if the first run's existence check found the year absent and the
appended (preprocessed) data contains at least one row whose `ANO_EGRESO`
cell is the file's (numeric) year, then a second run with the same file
performs no append: the Existence Checker now finds the year present, the
destination table is unchanged, and in particular the row count for that
year does not double. -/
theorem second_load_is_noop (csv : DFrame) (db0 : DB) (path : String)
    (y : Int) (out : DFrame) (p : Nat)
    (hy : sqlLit? (extractYearStr path) = some y)
    (hpre : preprocess_data csv (1 / 2) = .ok out)
    (hano : anoIndex out.cols = some p)
    (hrow : ∃ r ∈ out.rows, r[p]? = some (Cell.int y))
    (happ : Event.append ∈ (mainWithPath path csv db0).events) :
    Event.append ∉ (mainWithPath path csv (mainWithPath path csv db0).db).events ∧
    (mainWithPath path csv (mainWithPath path csv db0).db).db =
      (mainWithPath path csv db0).db ∧
    countYearInDB (mainWithPath path csv (mainWithPath path csv db0).db).db y =
      countYearInDB (mainWithPath path csv db0).db y := by
  cases hex : data_already_exists db0 (extractYearStr path) with
  | true =>
    exfalso
    unfold mainWithPath finishValidate at happ
    rw [hex] at happ
    cases hv : validate_data db0 <;> rw [hv] at happ <;> simp at happ
  | false =>
    have hmain1 : ∀ db', appendTable db0 out = some db' →
        mainWithPath path csv db0 = finishValidate
          [Event.loadCSV, Event.existsCheck, Event.preprocess, Event.append]
          db' ["File Path: " ++ path] := by
      intro db' ha
      unfold mainWithPath
      simp only [hex, Bool.false_eq_true, if_false]
      rw [hpre]
      simp only [ha]
    cases ha : appendTable db0 out with
    | none =>
      exfalso
      unfold mainWithPath at happ
      simp only [hex, Bool.false_eq_true, if_false] at happ
      rw [hpre] at happ
      simp only [ha] at happ
      simp at happ
    | some db' =>
      have h1 := hmain1 db' ha
      have hdb1 : (mainWithPath path csv db0).db = db' := by
        rw [h1]
        unfold finishValidate
        cases validate_data db' <;> rfl
      obtain ⟨r, hrmem, hrp⟩ := hrow
      have hdbshape : ∃ cols' rows', db' = some (cols', rows') ∧
          anoIndex cols' = some p ∧ r ∈ rows' := by
        cases db0 with
        | none =>
          simp only [appendTable, Option.some.injEq] at ha
          exact ⟨out.cols, out.rows, ha.symm, hano, hrmem⟩
        | some pr =>
          obtain ⟨cols0, rows0⟩ := pr
          simp only [appendTable] at ha
          by_cases hc : out.cols = cols0
          · rw [if_pos hc] at ha
            simp only [Option.some.injEq] at ha
            refine ⟨cols0, rows0 ++ out.rows, ha.symm, ?_, ?_⟩
            · rw [← hc]; exact hano
            · exact List.mem_append_right _ hrmem
          · rw [if_neg hc] at ha; cases ha
      obtain ⟨cols', rows', hdbeq, hanoc, hrin⟩ := hdbshape
      have hq : runYearQuery db' y =
          .ok (rows'.filter (fun rr => decide (rr[p]? = some (Cell.int y)))) := by
        rw [hdbeq]
        unfold runYearQuery
        simp only [hanoc]
      have hex2 : data_already_exists db' (extractYearStr path) = true := by
        unfold data_already_exists
        simp only [hy, hq]
        have hne : rows'.filter (fun rr => decide (rr[p]? = some (Cell.int y))) ≠ [] :=
          List.ne_nil_of_mem (List.mem_filter.mpr ⟨hrin, by simp [hrp]⟩)
        cases hf : rows'.filter (fun rr => decide (rr[p]? = some (Cell.int y))) with
        | nil => exact absurd hf hne
        | cons a l => simp
      rw [hdb1]
      have h2 : mainWithPath path csv db' = finishValidate
          [Event.loadCSV, Event.existsCheck] db'
          ["File Path: " ++ path,
           "The data already exists in the database. No se realizó ninguna acción."] := by
        unfold mainWithPath
        simp only [hex2, if_true]
      rw [h2]
      unfold finishValidate
      cases hv : validate_data db' <;> simp

/-- The first run of the C2 witness scenario, on an empty database: the year
is absent, `df18` is preprocessed to `out18` and appended. -/
theorem mainWithPath_df18_none :
    mainWithPath "data/egresos2019.csv" df18 none = finishValidate
      [Event.loadCSV, Event.existsCheck, Event.preprocess, Event.append]
      (some (out18.cols, out18.rows))
      ["File Path: " ++ "data/egresos2019.csv"] := by
  unfold mainWithPath
  rw [show data_already_exists none (extractYearStr "data/egresos2019.csv")
    = false from rfl]
  simp only [Bool.false_eq_true, if_false]
  rw [preprocess_df18_eq]
  simp only [appendTable]

/-- Witness for `second_load_is_noop`: loading `data/egresos2019.csv` into an
empty database and then loading it again. -/
theorem second_load_is_noop_witness :
    Event.append ∉ (mainWithPath "data/egresos2019.csv" df18
      (mainWithPath "data/egresos2019.csv" df18 none).db).events ∧
    (mainWithPath "data/egresos2019.csv" df18
      (mainWithPath "data/egresos2019.csv" df18 none).db).db =
      (mainWithPath "data/egresos2019.csv" df18 none).db ∧
    countYearInDB (mainWithPath "data/egresos2019.csv" df18
      (mainWithPath "data/egresos2019.csv" df18 none).db).db 2019 =
      countYearInDB (mainWithPath "data/egresos2019.csv" df18 none).db 2019 :=
  second_load_is_noop df18 none "data/egresos2019.csv" 2019 out18 11
    (by rfl) preprocess_df18_eq (by rfl)
    ⟨row18c, by decide, by rfl⟩
    (by rw [mainWithPath_df18_none]; decide)

/-- C7: invoking the program with no `-f`/`--file` option (the empty
argument list parses to the empty path) raises no error and exits with
status 0: it prints `No path was provided`, never invokes the Loader, and
still runs the Validator, whose report over the pre-existing table is
printed. -/
theorem no_path_behavior :
    parse_arguments [] = Except.ok "" ∧
    ∀ (argv : List String) (csv : DFrame) (cols : List String)
      (rows : List (List Cell)),
      parse_arguments argv = Except.ok "" →
      "ANO_EGRESO" ∈ cols →
      (pipelineMain argv csv (some (cols, rows))).exit = ExitStatus.success ∧
      "No path was provided" ∈ (pipelineMain argv csv (some (cols, rows))).output ∧
      Event.loadCSV ∉ (pipelineMain argv csv (some (cols, rows))).events ∧
      Event.validate ∈ (pipelineMain argv csv (some (cols, rows))).events ∧
      (pipelineMain argv csv (some (cols, rows))).report ≠ none := by
  constructor
  · rfl
  · intro argv csv cols rows hparse hano
    unfold pipelineMain
    rw [hparse]
    simp only [if_pos rfl]
    unfold finishValidate validate_data
    cases hai : anoIndex cols with
    | none => exact absurd hai (anoIndex_ne_none hano)
    | some p => simp [hai]

/-- Witness for `no_path_behavior`: the empty argument list against a table
holding only the `ANO_EGRESO` column and no rows. -/
theorem no_path_behavior_witness :
    (pipelineMain [] df18 (some (["ANO_EGRESO"], []))).exit =
      ExitStatus.success ∧
    "No path was provided" ∈
      (pipelineMain [] df18 (some (["ANO_EGRESO"], []))).output ∧
    Event.loadCSV ∉ (pipelineMain [] df18 (some (["ANO_EGRESO"], []))).events ∧
    Event.validate ∈ (pipelineMain [] df18 (some (["ANO_EGRESO"], []))).events ∧
    (pipelineMain [] df18 (some (["ANO_EGRESO"], []))).report ≠ none :=
  no_path_behavior.2 [] df18 ["ANO_EGRESO"] [] rfl (by decide)

end Pipeline
